import Mathlib

/-!
Verification development for the damon process supervisor.

This file gives a shallow embedding, in Lean 4, of the parts of the damon
source that the specification claims speak about:

* the win32 CPU-rate conversion (win32/job_object_info.go, MHzToCPURate);
* the limit-violation classifier (win32/job_object_info_win32.go,
  LimitViolationInfo on JOBOBJECT_LIMIT_VIOLATION_INFORMATION_2) and the
  per-message violation delivery of container.PollViolations;
* the CPU sample collector and the metrics publication step
  (metrics package: CPUCollector.Sample, Metrics.OnStats);
* the container construction ladder (container/container.go, RunContained),
  WaitForResult, and Exec;
* the plugin self-enrollment (plugin: wrapJob, NewDriverPlugin) and the
  task store (plugin: taskStore.Put/Get/Delete, DriverPlugin.StartTask);
* the exit-code mapping of the standalone supervisor
  (win32/process.go getExitCode, cmd/standalone/main.go).

Modelling conventions.
Machine integers are modelled as Nat or Int (Go time.Duration is an int64
nanosecond count, modelled as Int).  Kernel calls that can fail are driven by
an explicit oracle of booleans saying which call succeeds; the side effects
on kernel handles are tracked in an explicit state record.  Go float64
arithmetic is modelled over the exact rationals; a float division whose
denominator is zero produces a non-finite value (NaN or an infinity) in Go,
which the model represents as the value none of type Option Rat, while a
finite quotient is represented as some of the exact rational quotient.
-/

namespace Damon

/-! ## win32 limit flags (win32/job_object_info_win32.go) -/

def JOB_OBJECT_LIMIT_JOB_TIME : ℕ := 0x4
def JOB_OBJECT_LIMIT_JOB_MEMORY_HIGH : ℕ := 0x200
def JOB_OBJECT_LIMIT_JOB_MEMORY_LOW : ℕ := 0x8000
def JOB_OBJECT_LIMIT_READ_BYTES : ℕ := 0x10000
def JOB_OBJECT_LIMIT_WRITE_BYTES : ℕ := 0x20000
def JOB_OBJECT_LIMIT_RATE_CONTROL : ℕ := 0x40000
def JOB_OBJECT_LIMIT_IO_RATE_CONTROL : ℕ := 0x80000
def JOB_OBJECT_LIMIT_NET_RATE_CONTROL : ℕ := 0x100000

/-! ## MHzToCPURate (win32/job_object_info.go) -/

def MaxCPURate : ℕ := 10000
def MinCPURate : ℕ := 1

/-- SystemResources as used by MHzToCPURate: CPUTotalTicks is the float
field sr.CPUTotalTicks (cores times MHz per core), modelled as a rational. -/
structure SystemResourcesM where
  CPUNumCores : ℕ
  CPUMhzPercore : ℚ
  CPUTotalTicks : ℚ

/-- Embedding of win32.MHzToCPURate.  The Go code computes
r = float64(mhz) / sr.CPUTotalTicks, converts r * 10000.0 to uint
(truncation of a non-negative float, i.e. the natural floor), then clamps
to MaxCPURate above and MinCPURate below, returning 0 only for mhz == 0. -/
def MHzToCPURate (sr : SystemResourcesM) (mhz : ℕ) : ℕ :=
  if mhz = 0 then 0
  else
    let r : ℚ := (mhz : ℚ) / sr.CPUTotalTicks
    let rate : ℕ := ⌊r * 10000⌋₊
    if rate > MaxCPURate then MaxCPURate
    else if rate < MinCPURate then MinCPURate
    else rate

/-! ## Limit-violation classifier (win32/job_object_info_win32.go) -/

/-- Embedding of win32.LimitViolation (Measured and Limit are uint64). -/
structure W32LimitViolation where
  Measured : ℕ
  Limit : ℕ
deriving DecidableEq

/-- Embedding of win32.LimitViolationInfo.  Only the fields assigned by the
classifier below are ever set; the remaining pointer fields of the Go struct
stay nil and are carried here for structural faithfulness. -/
structure LimitViolationInfo where
  JobTimeViolation : Option W32LimitViolation := none
  CPURateViolation : Option W32LimitViolation := none
  MemoryViolation : Option W32LimitViolation := none
  HighMemoryViolation : Option W32LimitViolation := none
  LowMemoryViolation : Option W32LimitViolation := none
  IOReadBytesViolation : Option W32LimitViolation := none
  IOWriteByesViolation : Option W32LimitViolation := none
  IORateViolation : Option W32LimitViolation := none
  NetRateViolation : Option W32LimitViolation := none
deriving DecidableEq

/-- Embedding of the raw JOBOBJECT_LIMIT_VIOLATION_INFORMATION_2 record
dequeued from the completion port (all numeric fields are uint32/uint64). -/
structure RawLimitViolation2 where
  LimitFlags : ℕ
  ViolationLimitFlags : ℕ
  IoReadBytes : ℕ := 0
  IoReadBytesLimit : ℕ := 0
  IoWriteBytes : ℕ := 0
  IoWriteBytesLimit : ℕ := 0
  PerJobUserTime : ℕ := 0
  PerJobUserTimeLimit : ℕ := 0
  JobMemory : ℕ := 0
  JobMemoryLimit : ℕ := 0
  RateControlTolerance : ℕ := 0
  RateControlToleranceLimit : ℕ := 0
  JobLowMemoryLimit : ℕ := 0
  IORateControlTolerance : ℕ := 0
  IORateControlToleranceLimit : ℕ := 0
  NetRateControlTolerance : ℕ := 0
  NetRateControlToleranceLimit : ℕ := 0

/-- Step 1 of the classifier: the if-block for the high-memory flag. -/
def lviMemHigh (i : RawLimitViolation2) (v : ℕ) (info : LimitViolationInfo) :
    LimitViolationInfo :=
  if 0 < Nat.land v JOB_OBJECT_LIMIT_JOB_MEMORY_HIGH then
    { info with HighMemoryViolation := some ⟨i.JobMemory, i.JobMemoryLimit⟩ } else info

/-- Step 2 of the classifier: the if-block for the low-memory flag (note it
assigns the same HighMemoryViolation field as step 1). -/
def lviMemLow (i : RawLimitViolation2) (v : ℕ) (info : LimitViolationInfo) :
    LimitViolationInfo :=
  if 0 < Nat.land v JOB_OBJECT_LIMIT_JOB_MEMORY_LOW then
    { info with HighMemoryViolation := some ⟨i.JobMemory, i.JobLowMemoryLimit⟩ } else info

/-- Step 3 of the classifier: the if-block for the read-bytes flag. -/
def lviRead (i : RawLimitViolation2) (v : ℕ) (info : LimitViolationInfo) :
    LimitViolationInfo :=
  if 0 < Nat.land v JOB_OBJECT_LIMIT_READ_BYTES then
    { info with IOReadBytesViolation := some ⟨i.IoReadBytes, i.IoReadBytesLimit⟩ } else info

/-- Step 4 of the classifier: the if-block for the write-bytes flag (note it
assigns the same IOReadBytesViolation field as step 3). -/
def lviWrite (i : RawLimitViolation2) (v : ℕ) (info : LimitViolationInfo) :
    LimitViolationInfo :=
  if 0 < Nat.land v JOB_OBJECT_LIMIT_WRITE_BYTES then
    { info with IOReadBytesViolation := some ⟨i.IoWriteBytes, i.IoWriteBytesLimit⟩ } else info

/-- Step 5 of the classifier: the if-block for the job-time flag. -/
def lviTime (i : RawLimitViolation2) (v : ℕ) (info : LimitViolationInfo) :
    LimitViolationInfo :=
  if 0 < Nat.land v JOB_OBJECT_LIMIT_JOB_TIME then
    { info with JobTimeViolation := some ⟨i.PerJobUserTime, i.PerJobUserTimeLimit⟩ } else info

/-- Step 6 of the classifier: the if-block for the cpu-rate-control flag. -/
def lviRate (i : RawLimitViolation2) (v : ℕ) (info : LimitViolationInfo) :
    LimitViolationInfo :=
  if 0 < Nat.land v JOB_OBJECT_LIMIT_RATE_CONTROL then
    { info with CPURateViolation := some ⟨i.RateControlTolerance, i.RateControlToleranceLimit⟩ } else info

/-- Step 7 of the classifier: the if-block for the io-rate-control flag. -/
def lviIORate (i : RawLimitViolation2) (v : ℕ) (info : LimitViolationInfo) :
    LimitViolationInfo :=
  if 0 < Nat.land v JOB_OBJECT_LIMIT_IO_RATE_CONTROL then
    { info with IORateViolation := some ⟨i.IORateControlTolerance, i.IORateControlToleranceLimit⟩ } else info

/-- Step 8 of the classifier: the if-block for the net-rate-control flag
(note it assigns the same IORateViolation field as step 7). -/
def lviNet (i : RawLimitViolation2) (v : ℕ) (info : LimitViolationInfo) :
    LimitViolationInfo :=
  if 0 < Nat.land v JOB_OBJECT_LIMIT_NET_RATE_CONTROL then
    { info with IORateViolation := some ⟨i.NetRateControlTolerance, i.NetRateControlToleranceLimit⟩ } else info

/-- Embedding of the method LimitViolationInfo() on
JOBOBJECT_LIMIT_VIOLATION_INFORMATION_2: v is the intersection of the
violated flags with the configured flags, and the eight if-blocks of the
source run in order on the initially empty record, a later assignment to a
field (e.g. WriteBytes after ReadBytes) overwriting the earlier one. -/
def limitViolationInfo2 (i : RawLimitViolation2) : LimitViolationInfo :=
  let f := i.LimitFlags
  let v := Nat.land i.ViolationLimitFlags f
  lviNet i v (lviIORate i v (lviRate i v (lviTime i v
    (lviWrite i v (lviRead i v (lviMemLow i v (lviMemHigh i v {})))))))

/-- Embedding of container.LimitViolation (field Type of the Go struct is
spelled vType here because Type is reserved in Lean). -/
structure ContainerViolation where
  vType : String
  message : String
deriving DecidableEq

/-- Tolerance switch in the CPU branch of PollViolations. -/
def toleranceMessage (limit : ℕ) : String :=
  match limit with
  | 1 => " > 20% of the time"
  | 2 => " > 40% of the time"
  | 3 => " > 60% of the time"
  | _ => ""

/-- Embedding of the violation list built by one iteration of
container.PollViolations for a notification-limit message: the CPU, IO-rate
and high-memory fields of the classified record are appended in that order;
the JobTimeViolation and IOReadBytesViolation fields are never inspected. -/
def pollViolationsMessage (vi : LimitViolationInfo) : List ContainerViolation :=
  (match vi.CPURateViolation with
    | some lv => [⟨"CPU", "CPU Rate exceeded threshold" ++ toleranceMessage lv.Limit⟩]
    | none => []) ++
  (match vi.IORateViolation with
    | some lv => [⟨"IO", "IO Rate exceeded threshold: " ++ toString lv.Measured ++ " > " ++ toString lv.Limit⟩]
    | none => []) ++
  (match vi.HighMemoryViolation with
    | some lv => [⟨"Memory", "Memory exceeded threshold: " ++ toString lv.Measured ++ " > " ++ toString lv.Limit⟩]
    | none => [])

/-- Violations delivered to the callback for one raw limit-violation message:
the completion-port dequeue classifies the raw record with
limitViolationInfo2 and PollViolations delivers the resulting list. -/
def deliveredViolations (m : RawLimitViolation2) : List ContainerViolation :=
  pollViolationsMessage (limitViolationInfo2 m)

/-- Modelled from the spec: the set KNOWN of decoded limit flags named in
the specification (JobMemoryHigh, JobMemoryLow, ReadBytes, WriteBytes,
JobTime, CPURateControl, IORateControl, NetRateControl). -/
def knownFlagsList : List ℕ :=
  [JOB_OBJECT_LIMIT_JOB_MEMORY_HIGH, JOB_OBJECT_LIMIT_JOB_MEMORY_LOW,
   JOB_OBJECT_LIMIT_READ_BYTES, JOB_OBJECT_LIMIT_WRITE_BYTES,
   JOB_OBJECT_LIMIT_JOB_TIME, JOB_OBJECT_LIMIT_RATE_CONTROL,
   JOB_OBJECT_LIMIT_IO_RATE_CONTROL, JOB_OBJECT_LIMIT_NET_RATE_CONTROL]

/-- Modelled from the spec: popcount of the intersection of a flag word with
the KNOWN set.  The known flags are pairwise distinct single bits, so this
equals the number of known flags set in the word. -/
def knownPopcount (v : ℕ) : ℕ :=
  (knownFlagsList.filter (fun fl => 0 < Nat.land v fl)).length

/-! ## CPU collector and metrics publication (metrics package) -/

/-- Float division as performed by the Go sample derivation: a zero
denominator yields a non-finite float (modelled none), otherwise the exact
quotient (modelled some). -/
def floatDiv (a b : ℤ) : Option ℚ :=
  if b = 0 then none else some ((a : ℚ) / (b : ℚ))

/-- Mutable state of metrics.CPUCollector (durations are int64 nanosecond
counts; MHzPerCore is a float64). -/
structure CPUCollectorState where
  LastTotalDuration : ℤ := 0
  LastUserDuration : ℤ := 0
  LastKernelDuration : ℤ := 0
  Cores : ℕ := 1
  MHzPerCore : ℚ := 0

/-- Embedding of metrics.CPUMeasurement. -/
structure CPUMeasurement where
  TotalTime : ℤ
  UserTime : ℤ
  KernelTime : ℤ
deriving DecidableEq

/-- Embedding of metrics.CPUSample.  The percent fields hold the result of a
float division (none when the denominator was zero); the Hz fields hold
percent times 1e6 times total MHz before the uint64 truncation, which no
claim depends on. -/
structure CPUSample where
  Measurement : CPUMeasurement
  DeltaKernelTime : ℤ
  DeltaUserTime : ℤ
  DeltaTotalTime : ℤ
  KernelPercent : Option ℚ
  KernelHz : Option ℚ
  UserPercent : Option ℚ
  UserHz : Option ℚ

/-- Embedding of (*CPUCollector).Sample.  The previous totals t0, k0, u0 are
read and replaced under the lock, then the deltas and percents are computed.
Note: the returned DeltaUserTime is m.UserTime - k0, subtracting the
previous kernel duration, exactly as in the source. -/
def CPUCollector.Sample (c : CPUCollectorState) (m : CPUMeasurement) :
    CPUCollectorState × CPUSample :=
  let t0 := c.LastTotalDuration
  let k0 := c.LastKernelDuration
  let u0 := c.LastUserDuration
  let c' := { c with
    LastTotalDuration := m.TotalTime
    LastKernelDuration := m.KernelTime
    LastUserDuration := m.UserTime }
  let ttime : ℤ := m.TotalTime - t0
  let tmhz : ℚ := c.MHzPerCore * (c.Cores : ℚ)
  let kperc : Option ℚ := floatDiv (m.KernelTime - k0) ttime
  let uperc : Option ℚ := floatDiv (m.UserTime - u0) ttime
  let mHzToHz : ℚ := 1000000
  let khz : Option ℚ := kperc.map (fun q => q * mHzToHz * tmhz)
  let uhz : Option ℚ := uperc.map (fun q => q * mHzToHz * tmhz)
  (c', {
    Measurement := m
    DeltaTotalTime := m.TotalTime - t0
    DeltaKernelTime := m.KernelTime - k0
    DeltaUserTime := m.UserTime - k0
    KernelPercent := kperc
    KernelHz := khz
    UserPercent := uperc
    UserHz := uhz })

/-- CPU part of container.ProcessStats (int64 nanosecond durations). -/
structure CPUStatsM where
  TotalRunTime : ℤ
  TotalCPUTime : ℤ
  TotalKernelTime : ℤ
  TotalUserTime : ℤ

/-- The CPU gauges of the metrics registry that (*Metrics).OnStats writes on
every call.  A percent or Hz gauge stores the last float value passed to
Set, so it holds an Option Rat under the float model. -/
structure MetricsCPUGauges where
  cpuKernelSeconds : ℚ := 0
  cpuUserSeconds : ℚ := 0
  cpuKernelPercent : Option ℚ := some 0
  cpuUserPercent : Option ℚ := some 0
  cpuKernelHz : Option ℚ := some 0
  cpuUserHz : Option ℚ := some 0
deriving DecidableEq

/-- State touched by the CPU section of (*Metrics).OnStats. -/
structure MetricsState where
  collector : CPUCollectorState
  gauges : MetricsCPUGauges

/-- Embedding of the CPU section of (*Metrics).OnStats: it samples the
collector with (TotalCPUTime, TotalUserTime, TotalKernelTime) and then
unconditionally calls Set on every CPU gauge with the fresh sample values
(the memory and IO gauge writes touch disjoint state and are not modelled).
Seconds conversion divides the nanosecond count by 1e9. -/
def Metrics.OnStats (st : MetricsState) (stats : CPUStatsM) : MetricsState :=
  let sampled := CPUCollector.Sample st.collector
    ⟨stats.TotalCPUTime, stats.TotalUserTime, stats.TotalKernelTime⟩
  { collector := sampled.1
    gauges := {
      cpuUserSeconds := (stats.TotalUserTime : ℚ) / 1000000000
      cpuKernelSeconds := (stats.TotalKernelTime : ℚ) / 1000000000
      cpuKernelHz := sampled.2.KernelHz
      cpuKernelPercent := sampled.2.KernelPercent
      cpuUserHz := sampled.2.UserHz
      cpuUserPercent := sampled.2.UserPercent } }

/-! ## Container construction ladder (container/container.go, RunContained) -/

def MBToBytes : ℕ := 1024 * 1024
def MinimumCPUMHz : ℤ := 100

/-- Embedding of container.Config (ints are Go int). -/
structure ContainerConfig where
  Name : String := ""
  EnforceCPU : Bool := false
  EnforceMemory : Bool := false
  RestrictedToken : Bool := false
  MemoryMBLimit : ℤ := 0
  CPUMHzLimit : ℤ := 0
  CPUHardCap : Bool := false

/-- Oracle deciding which kernel calls of the startup ladder succeed. -/
structure KernelOracle where
  createJobOk : Bool := true
  currentTokenOk : Bool := true
  restrictedTokenOk : Bool := true
  startProcessOk : Bool := true
  assignOk : Bool := true
  setEliOk : Bool := true
  setNliOk : Bool := true
  setCrciOk : Bool := true
  resumeOk : Bool := true

/-- Kernel-visible side effects of one RunContained call: which handles were
created, which were closed again, whether a token handle is still open, and
whether the child process was spawned or killed. -/
structure KernelState where
  jobCreated : Bool := false
  jobClosed : Bool := false
  tokenOpen : Bool := false
  procStarted : Bool := false
  procKilled : Bool := false
deriving DecidableEq

/-- Outcome of container.RunContained: either a container or the wrapped
error message of the failing rung. -/
inductive RunOutcome where
  | ok : RunOutcome
  | err (msg : String) : RunOutcome
deriving DecidableEq

/-- Embedding of container.RunContained, tracking the kernel side effects of
every rung and early return exactly as in the source.  The token is closed
by a defer registered after the restricted-token branch, so every return
below that point ends with the token closed.  Note which failure paths kill
the child or close the job handle and which return without doing either. -/
def RunContained (cfg : ContainerConfig) (o : KernelOracle) :
    KernelState × RunOutcome :=
  let st : KernelState := {}
  if ¬ o.createJobOk then
    (st, .err "unable to get create win32.JobObject")
  else
    let st := { st with jobCreated := true }
    if ¬ o.currentTokenOk then
      (st, .err "unable to get current process token")
    else
      let st := { st with tokenOpen := true }
      let branch : KernelState × Option RunOutcome :=
        if cfg.RestrictedToken then
          let st := { st with tokenOpen := false }
          if ¬ o.restrictedTokenOk then
            (st, some (.err "unable to create restricted token"))
          else
            ({ st with tokenOpen := true }, none)
        else (st, none)
      match branch with
      | (st, some out) => (st, out)
      | (st, none) =>
        if ¬ o.startProcessOk then
          ({ st with tokenOpen := false }, .err "unable to start process")
        else
          let st := { st with procStarted := true }
          if ¬ o.assignOk then
            ({ st with procKilled := true, tokenOpen := false },
             .err "unable to assign process to job object")
          else if ¬ o.setEliOk then
            ({ st with procKilled := true, jobClosed := true, tokenOpen := false },
             .err "container: Could not set basic limit information")
          else if cfg.EnforceCPU ∧ cfg.CPUMHzLimit < MinimumCPUMHz then
            ({ st with tokenOpen := false },
             .err "CPUMHzLimit is too low. Minimum is 100")
          else if cfg.EnforceCPU ∧ ¬ o.setNliOk then
            ({ st with procKilled := true, jobClosed := true, tokenOpen := false },
             .err "container: Could not set cpu notification limits")
          else if cfg.EnforceCPU ∧ ¬ o.setCrciOk then
            ({ st with procKilled := true, jobClosed := true, tokenOpen := false },
             .err "container: Could not set cpu rate limits")
          else if ¬ o.resumeOk then
            ({ st with procKilled := true, jobClosed := true, tokenOpen := false },
             .err "container: Could not resume process main thread")
          else
            ({ st with tokenOpen := false }, .ok)

/-! ## Container runtime protocol (WaitForResult, wait, Exec) -/

/-- Embedding of container.Result: Err models whether the error field is
non-nil, ExitStatus is the cached exit status. -/
structure CResult where
  Err : Bool := false
  ExitStatus : ℤ := 0
deriving DecidableEq

/-- Runtime view of a constructed container: whether the internal reaper has
completed (doneCh closed), the cached result, and whether the child process
is still alive. -/
structure ContainerRun where
  reaperDone : Bool := false
  result : CResult := {}
  procAlive : Bool := true
deriving DecidableEq

/-- Embedding of the internal reaper (*Container).wait: it calls proc.Wait,
stores Result with only the error on a wait error and otherwise only the
exit status, and closes doneCh (reaperDone) in both cases.  It never touches
the child process. -/
def Container.reap (c : ContainerRun) (prExitStatus : ℤ) (waitErr : Bool) :
    ContainerRun :=
  if waitErr then
    { c with reaperDone := true, result := { Err := true, ExitStatus := 0 } }
  else
    { c with reaperDone := true, result := { Err := false, ExitStatus := prExitStatus } }

/-- The branch of the select in WaitForResult that fires: either the done
broadcast or the cancellation of the caller-supplied context. -/
inductive WaitEvent where
  | done : WaitEvent
  | ctxDone : WaitEvent

/-- Embedding of (*Container).WaitForResult: on the done branch it returns
the cached result and a nil error; on the context branch it returns a
Result with ExitStatus -1 together with the context error (the returned
Bool is true when the error is the cancellation error).  The container
state is returned unchanged: the function only reads it. -/
def Container.WaitForResult (c : ContainerRun) (ev : WaitEvent) :
    (CResult × Bool) × ContainerRun :=
  match ev with
  | .done => ((c.result, false), c)
  | .ctxDone => (({ Err := false, ExitStatus := -1 }, true), c)

/-- Embedding of container.TaskConfig as used by Exec. -/
structure ExecTaskConfig where
  Command : List String := []
  Dir : String := ""
  EnvList : List String := []

/-- Kernel operations performed by Exec, in order. -/
inductive ExecOp where
  | startProcess : ExecOp
  | assignToJob : ExecOp
  | resume : ExecOp
  | kill : ExecOp
deriving DecidableEq

/-- Oracle for the kernel calls made by Exec. -/
structure ExecOracle where
  startOk : Bool := true
  assignOk : Bool := true
  resumeOk : Bool := true

/-- Embedding of (*Container).Exec: an empty command list is rejected before
any kernel call; otherwise the auxiliary process is started suspended,
assigned to the job object, and resumed, with the process killed when assign
or resume fails.  The container itself is only read, so it is returned
unchanged. -/
def Container.Exec (c : ContainerRun) (cfg : ExecTaskConfig) (o : ExecOracle) :
    (List ExecOp × Except String Unit) × ContainerRun :=
  if cfg.Command.length = 0 then
    (([], .error "exec requires at least 1 argument"), c)
  else if ¬ o.startOk then
    (([.startProcess], .error "unable to start process"), c)
  else if ¬ o.assignOk then
    (([.startProcess, .assignToJob, .kill], .error "unable to assign process to job object"), c)
  else if ¬ o.resumeOk then
    (([.startProcess, .assignToJob, .resume, .kill], .error "could not resume process main thread"), c)
  else
    (([.startProcess, .assignToJob, .resume], .ok ()), c)

/-! ## Plugin self-enrollment (plugin: wrapJob, NewDriverPlugin) -/

/-- Kernel operations performed while building the driver plugin. -/
inductive PluginOp where
  | currentProcess : PluginOp
  | createJobObject : PluginOp
  | setExtendedLimitInfo (killOnJobClose : Bool) : PluginOp
  | assignCurrentProcess : PluginOp
  | createTaskStore : PluginOp
deriving DecidableEq

/-- Oracle for the kernel calls made by wrapJob. -/
structure PluginOracle where
  currentProcessOk : Bool := true
  createJobOk : Bool := true
  setInfoOk : Bool := true
  assignOk : Bool := true

/-- Embedding of plugin.wrapJob: open the current process, create a job
object, set the extended-limit information with KillOnJobClose true, and
then assign the current process to the job, returning the operation trace
and whether enrollment succeeded. -/
def wrapJob (o : PluginOracle) : List PluginOp × Bool :=
  if ¬ o.currentProcessOk then
    ([.currentProcess], false)
  else if ¬ o.createJobOk then
    ([.currentProcess, .createJobObject], false)
  else if ¬ o.setInfoOk then
    ([.currentProcess, .createJobObject, .setExtendedLimitInfo true], false)
  else if ¬ o.assignOk then
    ([.currentProcess, .createJobObject, .setExtendedLimitInfo true, .assignCurrentProcess], false)
  else
    ([.currentProcess, .createJobObject, .setExtendedLimitInfo true, .assignCurrentProcess], true)

/-- Embedding of plugin.NewDriverPlugin: wrapJob runs first, and only when
it succeeds is the DriverPlugin value built, which creates the task store;
on a wrapJob failure the constructor returns nil and no store is created.
The returned Bool is whether a plugin was returned. -/
def NewDriverPlugin (o : PluginOracle) : List PluginOp × Bool :=
  let wrapped := wrapJob o
  if ¬ wrapped.2 then (wrapped.1, false)
  else (wrapped.1 ++ [.createTaskStore], true)

/-! ## Task store (plugin: taskStore, DriverPlugin.StartTask) -/

/-- Embedding of plugin.taskStore: a map from task ID to handle, modelled as
an association list with map-assignment semantics; handles are abstracted
to numeric tags. -/
def TaskStore : Type := List (String × ℕ)

/-- Embedding of (*taskStore).Get: map lookup. -/
def TaskStore.Get (s : TaskStore) (taskID : String) : Option ℕ :=
  (List.find? (fun p => p.1 == taskID) s).map Prod.snd

/-- Embedding of (*taskStore).Put: the Go map assignment
store[taskID] = handle, which replaces any existing entry for the key and
reports nothing. -/
def TaskStore.Put (s : TaskStore) (taskID : String) (handle : ℕ) : TaskStore :=
  (taskID, handle) :: List.filter (fun p => p.1 != taskID) s

/-- Embedding of (*taskStore).Delete: map deletion. -/
def TaskStore.Delete (s : TaskStore) (taskID : String) : TaskStore :=
  List.filter (fun p => p.1 != taskID) s

/-- Embedding of the store interaction of (*DriverPlugin).StartTask: refuse
when the ID is already present, otherwise build the container (which may
fail, driven by startOk) and insert the handle. -/
def StartTask (s : TaskStore) (taskID : String) (handle : ℕ) (startOk : Bool) :
    Except String TaskStore :=
  if (TaskStore.Get s taskID).isSome then
    .error ("task with ID " ++ taskID ++ " is already running")
  else if ¬ startOk then
    .error "unable to start container"
  else
    .ok (TaskStore.Put s taskID handle)

/-! ## Exit codes (win32/process.go, cmd/standalone/main.go) -/

def ExitStatusStartError : ℤ := 253
def ExitStatusError : ℤ := 254
def ExitStatusUnknown : ℤ := 255

/-- Abstraction of os.ProcessState: whether the process exited normally and
its exit code. -/
structure ProcStateM where
  exited : Bool
  exitCode : ℤ

/-- Embedding of win32.getExitCode: the exit code of an exited state, else
ExitStatusError when the wait returned an error, else ExitStatusUnknown. -/
def getExitCode (state : Option ProcStateM) (err : Bool) : ℤ :=
  match state with
  | some st =>
    if st.exited then st.exitCode
    else if err then ExitStatusError else ExitStatusUnknown
  | none => if err then ExitStatusError else ExitStatusUnknown

/-- Embedding of the exit path of the standalone supervisor main: when
RunContained fails it exits 1; otherwise it waits for the container result,
whose exit status is getExitCode of the reaped process state, and exits
with it. -/
def standaloneExitCode (startOk : Bool) (state : Option ProcStateM) (waitErr : Bool) : ℤ :=
  if ¬ startOk then 1
  else getExitCode state waitErr

/-! ## Theorems -/

/-- Failing configuration for claim C1: enforce-CPU true with a 99 MHz
limit, all kernel calls succeeding. -/
def c1cfg : ContainerConfig :=
  { Name := "t", EnforceCPU := true, CPUMHzLimit := 99 }

/-- C1: evaluating RunContained at the failing input (enforce-CPU true,
CPU-limit-MHz = 99, every kernel call succeeding) shows that construction
fails with the configuration error while the suspended child is left alive
(procKilled = false) and the job-object handle is left open
(jobClosed = false), contradicting the claim that a failed rung kills the
child and closes every handle opened so far. -/
theorem runContained_lowCPULimit_leaks :
    RunContained c1cfg {} =
      ({ jobCreated := true, jobClosed := false, tokenOpen := false,
         procStarted := true, procKilled := false },
       .err "CPUMHzLimit is too low. Minimum is 100") := by
  rfl

/-- C2: in every successful construction of the driver plugin, the plugin
process is enrolled into its own job object with kill-on-job-close set
before the task store exists: the operation trace is exactly current
process, create job object, set extended-limit information with
KillOnJobClose = true, assign the current process, and only then create the
task store; and when enrollment fails, no task store is ever created. -/
theorem newDriverPlugin_enrolls_before_task_store (o : PluginOracle) :
    ((NewDriverPlugin o).2 = true →
      (NewDriverPlugin o).1 =
        [.currentProcess, .createJobObject, .setExtendedLimitInfo true,
         .assignCurrentProcess, .createTaskStore]) ∧
    ((NewDriverPlugin o).2 = false →
      PluginOp.createTaskStore ∉ (NewDriverPlugin o).1) := by
  rcases o with ⟨a, b, c, d⟩
  cases a <;> cases b <;> cases c <;> cases d <;> decide

/-- Witness for C2: with every kernel call succeeding, the plugin is built
and the trace is the full enrollment sequence followed by the store
creation. -/
theorem newDriverPlugin_enrolls_before_task_store_witness :
    (NewDriverPlugin {}).1 =
      [.currentProcess, .createJobObject, .setExtendedLimitInfo true,
       .assignCurrentProcess, .createTaskStore] :=
  (newDriverPlugin_enrolls_before_task_store {}).1 (by decide)

/-- C3: when the caller context is cancelled before the reaper has
completed, WaitForResult returns a Result with exit status -1 together with
the cancellation error and leaves the container untouched (in particular
the child stays alive); the reaper still runs to completion, after which a
wait on the done branch yields the real cached result with no error. -/
theorem waitForResult_cancellation (c : ContainerRun) (prExit : ℤ) (waitErr : Bool)
    (_h : c.reaperDone = false) :
    Container.WaitForResult c .ctxDone = (({ Err := false, ExitStatus := -1 }, true), c) ∧
    (Container.reap c prExit waitErr).procAlive = c.procAlive ∧
    (Container.reap c prExit waitErr).reaperDone = true ∧
    (Container.WaitForResult (Container.reap c prExit waitErr) .done).1 =
      ((if waitErr then { Err := true, ExitStatus := 0 }
        else { Err := false, ExitStatus := prExit }), false) := by
  cases waitErr <;>
    simp [Container.WaitForResult, Container.reap]

/-- Witness for C3: a freshly constructed container (reaper not yet done)
at exit status 0 and no wait error. -/
theorem waitForResult_cancellation_witness :
    Container.WaitForResult {} .ctxDone = (({ Err := false, ExitStatus := -1 }, true), {}) ∧
    (Container.reap {} 0 false).procAlive = ({} : ContainerRun).procAlive ∧
    (Container.reap {} 0 false).reaperDone = true ∧
    (Container.WaitForResult (Container.reap {} 0 false) .done).1 =
      (({ Err := false, ExitStatus := 0 }), false) := by
  have h := waitForResult_cancellation {} 0 false rfl
  simpa using h

/-- Concrete collector state for claim C4. -/
def c4state : CPUCollectorState :=
  { LastTotalDuration := 0, LastUserDuration := 3, LastKernelDuration := 5,
    Cores := 1, MHzPerCore := 1 }

/-- Concrete measurement for claim C4. -/
def c4meas : CPUMeasurement :=
  { TotalTime := 100, UserTime := 10, KernelTime := 20 }

/-- C4: evaluating Sample at a collector whose previous user and kernel
durations differ shows that the returned DeltaUserTime is computed against
the previous kernel duration (10 - 5 = 5) and differs from
m.UserTime minus the stored LastUserDuration (10 - 3 = 7) that the claim
requires. -/
theorem sample_deltaUserTime_uses_kernel_baseline :
    (CPUCollector.Sample c4state c4meas).2.DeltaUserTime =
      c4meas.UserTime - c4state.LastKernelDuration ∧
    (CPUCollector.Sample c4state c4meas).2.DeltaUserTime ≠
      c4meas.UserTime - c4state.LastUserDuration := by
  decide

/-- C5: for every system-resource value and every input, MHzToCPURate
returns a value in the interval from MinCPURate = 1 to MaxCPURate = 10000
whenever the input is non-zero, and returns 0 exactly when the input is
zero. -/
theorem mhzToCPURate_range (sr : SystemResourcesM) (mhz : ℕ) :
    (mhz ≠ 0 → 1 ≤ MHzToCPURate sr mhz ∧ MHzToCPURate sr mhz ≤ 10000) ∧
    (MHzToCPURate sr mhz = 0 ↔ mhz = 0) := by
  unfold MHzToCPURate
  by_cases h : mhz = 0
  · simp [h]
  · simp only [h, if_false]
    split_ifs with h1 h2 <;>
      simp_all [MaxCPURate, MinCPURate]

/-- Concrete system resources for the C5 witness: 4 cores at 2400 MHz. -/
def c5res : SystemResourcesM := ⟨4, 2400, 9600⟩

/-- Witness for C5: a 2048 MHz cap on the 4-core 2400 MHz machine is mapped
into the unit interval. -/
theorem mhzToCPURate_range_witness :
    1 ≤ MHzToCPURate c5res 2048 ∧ MHzToCPURate c5res 2048 ≤ 10000 :=
  (mhzToCPURate_range c5res 2048).1 (by decide)

/-- Effective violation set of a raw message: the violated flags intersected
with the configured flags, as computed at the top of the classifier. -/
def effectiveFlags (m : RawLimitViolation2) : ℕ :=
  Nat.land m.ViolationLimitFlags m.LimitFlags

/-- Classifier steps that do not assign the CPURateViolation field leave it
unchanged. -/
lemma lviOther_CPURate (i : RawLimitViolation2) (v : ℕ) (info : LimitViolationInfo) :
    (lviMemHigh i v info).CPURateViolation = info.CPURateViolation ∧
    (lviMemLow i v info).CPURateViolation = info.CPURateViolation ∧
    (lviRead i v info).CPURateViolation = info.CPURateViolation ∧
    (lviWrite i v info).CPURateViolation = info.CPURateViolation ∧
    (lviTime i v info).CPURateViolation = info.CPURateViolation ∧
    (lviIORate i v info).CPURateViolation = info.CPURateViolation ∧
    (lviNet i v info).CPURateViolation = info.CPURateViolation := by
  unfold lviMemHigh lviMemLow lviRead lviWrite lviTime lviIORate lviNet
  refine ⟨?_, ?_, ?_, ?_, ?_, ?_, ?_⟩ <;> (split <;> rfl)

/-- The cpu-rate step assigns CPURateViolation when its flag is set. -/
lemma lviRate_CPURate (i : RawLimitViolation2) (v : ℕ) (info : LimitViolationInfo) :
    (lviRate i v info).CPURateViolation =
      if 0 < Nat.land v JOB_OBJECT_LIMIT_RATE_CONTROL
      then some ⟨i.RateControlTolerance, i.RateControlToleranceLimit⟩
      else info.CPURateViolation := by
  unfold lviRate; split <;> rfl

/-- Classifier steps that do not assign the IORateViolation field leave it
unchanged. -/
lemma lviOther_IORate (i : RawLimitViolation2) (v : ℕ) (info : LimitViolationInfo) :
    (lviMemHigh i v info).IORateViolation = info.IORateViolation ∧
    (lviMemLow i v info).IORateViolation = info.IORateViolation ∧
    (lviRead i v info).IORateViolation = info.IORateViolation ∧
    (lviWrite i v info).IORateViolation = info.IORateViolation ∧
    (lviTime i v info).IORateViolation = info.IORateViolation ∧
    (lviRate i v info).IORateViolation = info.IORateViolation := by
  unfold lviMemHigh lviMemLow lviRead lviWrite lviTime lviRate
  refine ⟨?_, ?_, ?_, ?_, ?_, ?_⟩ <;> (split <;> rfl)

/-- The io-rate step assigns IORateViolation when its flag is set. -/
lemma lviIORate_IORate (i : RawLimitViolation2) (v : ℕ) (info : LimitViolationInfo) :
    (lviIORate i v info).IORateViolation =
      if 0 < Nat.land v JOB_OBJECT_LIMIT_IO_RATE_CONTROL
      then some ⟨i.IORateControlTolerance, i.IORateControlToleranceLimit⟩
      else info.IORateViolation := by
  unfold lviIORate; split <;> rfl

/-- The net-rate step assigns IORateViolation when its flag is set. -/
lemma lviNet_IORate (i : RawLimitViolation2) (v : ℕ) (info : LimitViolationInfo) :
    (lviNet i v info).IORateViolation =
      if 0 < Nat.land v JOB_OBJECT_LIMIT_NET_RATE_CONTROL
      then some ⟨i.NetRateControlTolerance, i.NetRateControlToleranceLimit⟩
      else info.IORateViolation := by
  unfold lviNet; split <;> rfl

/-- Classifier steps that do not assign the HighMemoryViolation field leave
it unchanged. -/
lemma lviOther_HighMemory (i : RawLimitViolation2) (v : ℕ) (info : LimitViolationInfo) :
    (lviRead i v info).HighMemoryViolation = info.HighMemoryViolation ∧
    (lviWrite i v info).HighMemoryViolation = info.HighMemoryViolation ∧
    (lviTime i v info).HighMemoryViolation = info.HighMemoryViolation ∧
    (lviRate i v info).HighMemoryViolation = info.HighMemoryViolation ∧
    (lviIORate i v info).HighMemoryViolation = info.HighMemoryViolation ∧
    (lviNet i v info).HighMemoryViolation = info.HighMemoryViolation := by
  unfold lviRead lviWrite lviTime lviRate lviIORate lviNet
  refine ⟨?_, ?_, ?_, ?_, ?_, ?_⟩ <;> (split <;> rfl)

/-- The high-memory step assigns HighMemoryViolation when its flag is set. -/
lemma lviMemHigh_HighMemory (i : RawLimitViolation2) (v : ℕ) (info : LimitViolationInfo) :
    (lviMemHigh i v info).HighMemoryViolation =
      if 0 < Nat.land v JOB_OBJECT_LIMIT_JOB_MEMORY_HIGH
      then some ⟨i.JobMemory, i.JobMemoryLimit⟩
      else info.HighMemoryViolation := by
  unfold lviMemHigh; split <;> rfl

/-- The low-memory step assigns HighMemoryViolation when its flag is set. -/
lemma lviMemLow_HighMemory (i : RawLimitViolation2) (v : ℕ) (info : LimitViolationInfo) :
    (lviMemLow i v info).HighMemoryViolation =
      if 0 < Nat.land v JOB_OBJECT_LIMIT_JOB_MEMORY_LOW
      then some ⟨i.JobMemory, i.JobLowMemoryLimit⟩
      else info.HighMemoryViolation := by
  unfold lviMemLow; split <;> rfl

/-- Final CPURateViolation field produced by the classifier. -/
lemma lvi2_CPURate (i : RawLimitViolation2) :
    (limitViolationInfo2 i).CPURateViolation =
      if 0 < Nat.land (effectiveFlags i) JOB_OBJECT_LIMIT_RATE_CONTROL
      then some ⟨i.RateControlTolerance, i.RateControlToleranceLimit⟩ else none := by
  have h := lviOther_CPURate
  simp only [limitViolationInfo2, effectiveFlags, (h _ _ _).1, (h _ _ _).2.1,
    (h _ _ _).2.2.1, (h _ _ _).2.2.2.1, (h _ _ _).2.2.2.2.1, (h _ _ _).2.2.2.2.2.1,
    (h _ _ _).2.2.2.2.2.2, lviRate_CPURate]

/-- Final IORateViolation field produced by the classifier: the net-rate
branch overwrites the io-rate branch. -/
lemma lvi2_IORate (i : RawLimitViolation2) :
    (limitViolationInfo2 i).IORateViolation =
      if 0 < Nat.land (effectiveFlags i) JOB_OBJECT_LIMIT_NET_RATE_CONTROL
      then some ⟨i.NetRateControlTolerance, i.NetRateControlToleranceLimit⟩
      else if 0 < Nat.land (effectiveFlags i) JOB_OBJECT_LIMIT_IO_RATE_CONTROL
      then some ⟨i.IORateControlTolerance, i.IORateControlToleranceLimit⟩ else none := by
  have h := lviOther_IORate
  simp only [limitViolationInfo2, effectiveFlags, (h _ _ _).1, (h _ _ _).2.1,
    (h _ _ _).2.2.1, (h _ _ _).2.2.2.1, (h _ _ _).2.2.2.2.1, (h _ _ _).2.2.2.2.2,
    lviNet_IORate, lviIORate_IORate]

/-- Final HighMemoryViolation field produced by the classifier: the
low-memory branch overwrites the high-memory branch. -/
lemma lvi2_HighMemory (i : RawLimitViolation2) :
    (limitViolationInfo2 i).HighMemoryViolation =
      if 0 < Nat.land (effectiveFlags i) JOB_OBJECT_LIMIT_JOB_MEMORY_LOW
      then some ⟨i.JobMemory, i.JobLowMemoryLimit⟩
      else if 0 < Nat.land (effectiveFlags i) JOB_OBJECT_LIMIT_JOB_MEMORY_HIGH
      then some ⟨i.JobMemory, i.JobMemoryLimit⟩ else none := by
  have h := lviOther_HighMemory
  simp only [limitViolationInfo2, effectiveFlags, (h _ _ _).1, (h _ _ _).2.1,
    (h _ _ _).2.2.1, (h _ _ _).2.2.2.1, (h _ _ _).2.2.2.2.1, (h _ _ _).2.2.2.2.2,
    lviMemLow_HighMemory, lviMemHigh_HighMemory]

/-- Raw message for the C6 counterexample: a configured and violated
job-time limit and nothing else. -/
def c6msg : RawLimitViolation2 := { LimitFlags := 0x4, ViolationLimitFlags := 0x4 }

/-- C6 counterexample: for a message whose configured and violated bitsets
both consist of the job-time flag, the intersection contains one known flag
(popcount 1) yet zero LimitViolation records are delivered to the callback,
because PollViolations never inspects the JobTimeViolation field; so the
claimed count equality fails. -/
theorem pollViolations_count_counterexample :
    (deliveredViolations c6msg).length = 0 ∧
    knownPopcount (effectiveFlags c6msg) = 1 := by
  decide

/-- C6 amended: every violation delivered to the callback corresponds to a
flag of its category inside the intersection of the configured and violated
bitsets, and the number of delivered records is the number of the three
delivered categories (CPU rate; IO or net rate; high or low memory) with at
least one flag in the intersection - not the popcount of the whole known
intersection, since duplicate-category decodings overwrite one another and
the job-time, read-bytes and write-bytes decodings are never delivered. -/
theorem pollViolations_amended (m : RawLimitViolation2) :
    ((deliveredViolations m).length =
      (if 0 < Nat.land (effectiveFlags m) JOB_OBJECT_LIMIT_RATE_CONTROL then 1 else 0) +
      (if 0 < Nat.land (effectiveFlags m) JOB_OBJECT_LIMIT_IO_RATE_CONTROL ∨
          0 < Nat.land (effectiveFlags m) JOB_OBJECT_LIMIT_NET_RATE_CONTROL then 1 else 0) +
      (if 0 < Nat.land (effectiveFlags m) JOB_OBJECT_LIMIT_JOB_MEMORY_HIGH ∨
          0 < Nat.land (effectiveFlags m) JOB_OBJECT_LIMIT_JOB_MEMORY_LOW then 1 else 0)) ∧
    (∀ cv ∈ deliveredViolations m,
      (cv.vType = "CPU" ∧ 0 < Nat.land (effectiveFlags m) JOB_OBJECT_LIMIT_RATE_CONTROL) ∨
      (cv.vType = "IO" ∧ (0 < Nat.land (effectiveFlags m) JOB_OBJECT_LIMIT_IO_RATE_CONTROL ∨
          0 < Nat.land (effectiveFlags m) JOB_OBJECT_LIMIT_NET_RATE_CONTROL)) ∨
      (cv.vType = "Memory" ∧ (0 < Nat.land (effectiveFlags m) JOB_OBJECT_LIMIT_JOB_MEMORY_HIGH ∨
          0 < Nat.land (effectiveFlags m) JOB_OBJECT_LIMIT_JOB_MEMORY_LOW))) := by
  simp only [deliveredViolations, pollViolationsMessage, lvi2_CPURate, lvi2_IORate,
    lvi2_HighMemory]
  by_cases h1 : 0 < Nat.land (effectiveFlags m) JOB_OBJECT_LIMIT_RATE_CONTROL <;>
  by_cases h2 : 0 < Nat.land (effectiveFlags m) JOB_OBJECT_LIMIT_IO_RATE_CONTROL <;>
  by_cases h3 : 0 < Nat.land (effectiveFlags m) JOB_OBJECT_LIMIT_NET_RATE_CONTROL <;>
  by_cases h4 : 0 < Nat.land (effectiveFlags m) JOB_OBJECT_LIMIT_JOB_MEMORY_HIGH <;>
  by_cases h5 : 0 < Nat.land (effectiveFlags m) JOB_OBJECT_LIMIT_JOB_MEMORY_LOW <;>
    simp_all

/-- Raw message for the C6 amended witness: a configured and violated CPU
rate-control limit with tolerance level 1. -/
def c6cpuMsg : RawLimitViolation2 :=
  { LimitFlags := 0x40000, ViolationLimitFlags := 0x40000,
    RateControlTolerance := 1, RateControlToleranceLimit := 1 }

/-- Witness for C6 amended: the CPU-rate message delivers exactly one
violation, which is of CPU type backed by the rate-control flag in the
intersection. -/
theorem pollViolations_amended_witness :
    ((⟨"CPU", "CPU Rate exceeded threshold > 20% of the time"⟩ : ContainerViolation).vType = "CPU" ∧
      0 < Nat.land (effectiveFlags c6cpuMsg) JOB_OBJECT_LIMIT_RATE_CONTROL) ∨
    ((⟨"CPU", "CPU Rate exceeded threshold > 20% of the time"⟩ : ContainerViolation).vType = "IO" ∧
      (0 < Nat.land (effectiveFlags c6cpuMsg) JOB_OBJECT_LIMIT_IO_RATE_CONTROL ∨
        0 < Nat.land (effectiveFlags c6cpuMsg) JOB_OBJECT_LIMIT_NET_RATE_CONTROL)) ∨
    ((⟨"CPU", "CPU Rate exceeded threshold > 20% of the time"⟩ : ContainerViolation).vType = "Memory" ∧
      (0 < Nat.land (effectiveFlags c6cpuMsg) JOB_OBJECT_LIMIT_JOB_MEMORY_HIGH ∨
        0 < Nat.land (effectiveFlags c6cpuMsg) JOB_OBJECT_LIMIT_JOB_MEMORY_LOW)) :=
  (pollViolations_amended c6cpuMsg).2
    ⟨"CPU", "CPU Rate exceeded threshold > 20% of the time"⟩ (by decide)

/-- Metrics state for the C7 counterexample: the collector has already seen
a total of 100 and the percent gauges hold a previously published value of
one half. -/
def c7state : MetricsState :=
  { collector := { LastTotalDuration := 100, LastUserDuration := 10,
                   LastKernelDuration := 20, Cores := 1, MHzPerCore := 1 }
    gauges := { cpuKernelPercent := some (1/2), cpuUserPercent := some (1/2) } }

/-- Stats for the C7 counterexample: the same total as the previous sample,
so the total-time delta is zero. -/
def c7stats : CPUStatsM :=
  { TotalRunTime := 100, TotalCPUTime := 100, TotalKernelTime := 50, TotalUserTime := 40 }

/-- C7 counterexample: with a zero total-time delta the percents are still
published - OnStats overwrites the previously published value of one half
with the non-finite quotient of the unsuppressed division - contradicting
the claim that the division is suppressed and the previous value retained. -/
theorem onStats_zeroDelta_counterexample :
    c7stats.TotalCPUTime - c7state.collector.LastTotalDuration = 0 ∧
    (Metrics.OnStats c7state c7stats).gauges.cpuKernelPercent = none ∧
    (Metrics.OnStats c7state c7stats).gauges.cpuKernelPercent ≠
      c7state.gauges.cpuKernelPercent := by
  refine ⟨by decide, rfl, by decide⟩

/-- C7 amended: on every call with a zero total-time delta the division is
performed anyway and its non-finite result (modelled none) is published to
the kernel and user percent and Hz gauges, overwriting whatever was
published before; no suppression or retention happens. -/
theorem onStats_zeroDelta_amended (st : MetricsState) (stats : CPUStatsM)
    (h : stats.TotalCPUTime = st.collector.LastTotalDuration) :
    (Metrics.OnStats st stats).gauges.cpuKernelPercent = none ∧
    (Metrics.OnStats st stats).gauges.cpuUserPercent = none ∧
    (Metrics.OnStats st stats).gauges.cpuKernelHz = none ∧
    (Metrics.OnStats st stats).gauges.cpuUserHz = none := by
  simp [Metrics.OnStats, CPUCollector.Sample, floatDiv, h]

/-- Witness for C7 amended: the concrete zero-delta state and stats. -/
theorem onStats_zeroDelta_amended_witness :
    (Metrics.OnStats c7state c7stats).gauges.cpuKernelPercent = none ∧
    (Metrics.OnStats c7state c7stats).gauges.cpuUserPercent = none ∧
    (Metrics.OnStats c7state c7stats).gauges.cpuKernelHz = none ∧
    (Metrics.OnStats c7state c7stats).gauges.cpuUserHz = none :=
  onStats_zeroDelta_amended c7state c7stats (by decide)

/-- C8 counterexample: Put on a task ID that already exists in the store
succeeds silently - it has no failure mode at all - and replaces the stored
handle, contradicting the claim that such an insertion fails loudly. -/
theorem taskStore_put_overwrites_counterexample :
    TaskStore.Put (TaskStore.Put ([] : TaskStore) "t1" 1) "t1" 2 = [("t1", 2)] ∧
    TaskStore.Get (TaskStore.Put (TaskStore.Put ([] : TaskStore) "t1" 1) "t1" 2) "t1" = some 2 := by
  constructor <;> rfl

/-- C8 amended: task-ID keys stay unique across Put, and the loud duplicate
rejection lives in StartTask, which refuses an ID already present in the
store before any insertion; Put itself silently overwrites the existing
entry. -/
theorem taskStore_amended (s : TaskStore) (taskID : String) (hdl : ℕ) (ok : Bool)
    (hnd : (List.map Prod.fst s).Nodup) :
    (List.map Prod.fst (TaskStore.Put s taskID hdl)).Nodup ∧
    TaskStore.Get (TaskStore.Put s taskID hdl) taskID = some hdl ∧
    ((TaskStore.Get s taskID).isSome →
      StartTask s taskID hdl ok =
        .error ("task with ID " ++ taskID ++ " is already running")) := by
  refine ⟨?_, ?_, ?_⟩
  · simp only [TaskStore.Put, List.map_cons, List.nodup_cons]
    constructor
    · intro hmem
      rcases List.mem_map.1 hmem with ⟨p, hp, hfst⟩
      rcases List.mem_filter.1 hp with ⟨-, hne⟩
      simp only [bne_iff_ne, ne_eq] at hne
      exact hne hfst
    · exact ((List.filter_sublist s).map Prod.fst).nodup hnd
  · simp [TaskStore.Get, TaskStore.Put]
  · intro hs
    simp [StartTask, hs]

/-- Witness for C8 amended: a singleton store with a Nodup key list and a
duplicate StartTask on its ID. -/
theorem taskStore_amended_witness :
    (List.map Prod.fst (TaskStore.Put ([("t1", 1)] : TaskStore) "t2" 2)).Nodup ∧
    TaskStore.Get (TaskStore.Put ([("t1", 1)] : TaskStore) "t2" 2) "t2" = some 2 ∧
    ((TaskStore.Get ([("t1", 1)] : TaskStore) "t2").isSome →
      StartTask ([("t1", 1)] : TaskStore) "t2" 2 true =
        .error ("task with ID " ++ "t2" ++ " is already running")) :=
  taskStore_amended [("t1", 1)] "t2" 2 true (by decide)

/-- C9 counterexample: when starting the child fails, the standalone
supervisor exits with code 1, not with the reserved start-failure code 253
(the constant ExitStatusStartError is defined but never used). -/
theorem standalone_startFailure_counterexample :
    standaloneExitCode false none false = 1 ∧ (1 : ℤ) ≠ ExitStatusStartError := by
  constructor
  · rfl
  · decide

/-- C9 amended: the standalone exit code equals the child exit code when the
child ran and exited; it is ExitStatusError = 254 when the wait returned an
error without an exited state, ExitStatusUnknown = 255 when there is
neither an exited state nor an error, and 1 - not 253 - when starting the
child fails. -/
theorem standalone_exit_codes (st : Option ProcStateM) (err : Bool) (code : ℤ) :
    standaloneExitCode true (some ⟨true, code⟩) err = code ∧
    standaloneExitCode true (some ⟨false, code⟩) true = ExitStatusError ∧
    standaloneExitCode true none true = ExitStatusError ∧
    standaloneExitCode true (some ⟨false, code⟩) false = ExitStatusUnknown ∧
    standaloneExitCode true none false = ExitStatusUnknown ∧
    standaloneExitCode false st err = 1 := by
  cases err <;> simp [standaloneExitCode, getExitCode]

/-- C10: Exec called with an empty command list returns an error before any
kernel action - no process is started, nothing is assigned to the job
object, nothing is resumed or killed - and the container state is returned
unchanged. -/
theorem exec_emptyCommand (c : ContainerRun) (cfg : ExecTaskConfig) (o : ExecOracle)
    (h : cfg.Command = []) :
    Container.Exec c cfg o = (([], .error "exec requires at least 1 argument"), c) := by
  simp [Container.Exec, h]

/-- Witness for C10: the empty task configuration on a fresh container. -/
theorem exec_emptyCommand_witness :
    Container.Exec {} {} {} = (([], .error "exec requires at least 1 argument"), {}) :=
  exec_emptyCommand {} {} {} rfl

end Damon
